import Mathlib

/-!
Verification of the ONNX pre-deployment validation harness
(`onnx_model_tester.py`) against its natural-language specification.

The development shallowly embeds the parts of the program that the
checked properties are about:

* dynamic-shape resolution and synthetic test-data generation
  (`_create_test_data`);
* class-count inference (`_detect_model_classes`) and class-balanced
  prompt synthesis (`_generate_prompts_for_model_type`,
  `_generate_prompts_for_class`);
* the input-validation probe (`test_input_validation`) and the
  orchestration of data-dependent probes (`run_comprehensive_test`,
  `test_with_training_data`, `test_edge_cases`);
* the scoring engine (`generate_deployment_report`).

Python floats that only feed threshold comparisons (pass rates,
accuracies, average latencies, scores) are modelled as rationals; the
random source of the synthesizer is modelled as an explicit seed
function; the inference engine is modelled as an oracle from the name
of a synthesized variant to either an output tensor or an error string.
-/

/-- Element kind of a tensor: the code branches on `'int' in input_meta.type`. -/
inductive ElemKind where
  | int
  | float
deriving DecidableEq, Repr

/-- One entry of a declared tensor shape.  In the source a dimension is either
a positive integer or one of the "symbolic" markers (a string, `None`, `-1`);
the marker variants behave identically, so they are folded into `sym`. -/
inductive Dim where
  | nat (n : ℕ)
  | sym (s : String)
deriving DecidableEq, Repr

/-- The dynamic-shape resolution loop of `_create_test_data` (lines 111-123).
`idx` is `len(processed_shape)`, the number of dimensions already emitted:
a symbolic first dimension becomes the batch size; a later symbolic dimension
becomes 30 for integer tensors, and for floating tensors 2792 in position 1
and 10 in any later position; concrete dimensions are kept. -/
def resolve_dims (kind : ElemKind) (batch_size : ℕ) : ℕ → List Dim → List ℕ
  | _, [] => []
  | idx, d :: rest =>
    (match d with
     | .nat n => n
     | .sym _ =>
       if idx = 0 then batch_size
       else if kind = .int then 30
       else if idx = 1 then 2792 else 10)
    :: resolve_dims kind batch_size (idx + 1) rest

/-- `processed_shape` as computed by `_create_test_data` for a declared shape. -/
def processed_shape (kind : ElemKind) (batch_size : ℕ) (dims : List Dim) : List ℕ :=
  resolve_dims kind batch_size 0 dims

/-- In the source the default value of the `batch_size` parameter of
`_create_test_data` is 1. -/
def default_batch_size : ℕ := 1

/-- `vocab_size = len(self.vocab) if self.vocab else 1000` (line 128).
The vocabulary collaborator is abstracted to its entry count; an absent
vocabulary (`None`) and an empty one are both falsy in Python, giving 1000. -/
def vocab_size (vocab : Option ℕ) : ℕ :=
  match vocab with
  | some n => if n = 0 then 1000 else n
  | none => 1000

/-- `max_token_id = max(1, min(vocab_size - 1, 1000))` (lines 129-130). -/
def max_token_id (vocab : Option ℕ) : ℕ :=
  max 1 (min (vocab_size vocab - 1) 1000)

/-- One draw of `np.random.randint(0, max_token_id)` (line 131), with the
random source made explicit: a seed is reduced into the half-open range
`[0, max_token_id)`.  The range is never empty because `max_token_id ≥ 1`. -/
def sample_token (vocab : Option ℕ) (seed : ℕ) : ℕ :=
  seed % max_token_id vocab

/-- The integer branch of `_create_test_data` (lines 108-136): resolve the
shape, then fill a tensor of that shape with random token ids.  The tensor is
flattened to the list of its entries; `rand` supplies the random draws.
Returns `(test_data, processed_shape)` as the source does. -/
def create_test_data_int (vocab : Option ℕ) (dims : List Dim) (batch_size : ℕ)
    (rand : ℕ → ℕ) : List ℕ × List ℕ :=
  let shape := processed_shape .int batch_size dims
  ((List.range (shape.foldr (· * ·) 1)).map fun i => sample_token vocab (rand i), shape)

/-- The class-count inference of `_detect_model_classes` (lines 1421-1426):
`num_classes = 1; if shape and len(shape) > 1: num_classes = shape[-1];
elif shape and shape[-1] == 1: num_classes = 2`.  When the trailing dimension
is symbolic the Python value is a string; returning a `Dim` keeps that case. -/
def detect_num_classes (out_shape : List Dim) : Dim :=
  match out_shape.getLast? with
  | none => .nat 1
  | some d => if out_shape.length > 1 then d else if d = .nat 1 then .nat 2 else .nat 1

/-- `is_binary = num_classes == 2` (line 1432); comparing a Python string with
`2` yields `False`, which the `Dim`-level equality reproduces. -/
def detect_is_binary (out_shape : List Dim) : Bool :=
  detect_num_classes out_shape = Dim.nat 2

/-- Python's substring test `sub in s`, via `splitOn`: the pattern occurs in
`s` exactly when splitting on it yields more than one piece. -/
def str_contains (s sub : String) : Bool :=
  (s.splitOn sub).length > 1

/-- The news-category table of `_detect_model_classes` (lines 1473-1474). -/
def news_categories : List String :=
  ["politics", "sports", "technology", "business", "entertainment",
   "health", "science", "world", "opinion", "local"]

/-- The emotion table of `_detect_model_classes` (line 1479). -/
def emotions_table : List String :=
  ["anger", "fear", "joy", "love", "sadness", "surprise", "neutral"]

/-- The `class_meanings` mapping built by `_detect_model_classes`
(lines 1437-1484) for a concrete class count, as the insertion-ordered list of
its `(id, meaning)` pairs.  (For a symbolic class count the source's
`range(num_classes)` would raise; that path is outside this definition.) -/
def class_meanings (model_path : String) (num_classes : ℕ) : List (ℕ × String) :=
  let p := model_path.toLower
  if str_contains p "hate" || str_contains p "toxic" then
    if num_classes = 2 then [(0, "hate_speech"), (1, "normal_speech")]
    else (List.range num_classes).map fun i => (i, "hate_level_" ++ toString i)
  else if str_contains p "sentiment" || str_contains p "feedback" then
    if num_classes = 2 then [(0, "negative_sentiment"), (1, "positive_sentiment")]
    else if num_classes = 3 then
      [(0, "negative_sentiment"), (1, "neutral_sentiment"), (2, "positive_sentiment")]
    else (List.range num_classes).map fun i => (i, "sentiment_level_" ++ toString i)
  else if str_contains p "spam" then
    if num_classes = 2 then [(0, "spam"), (1, "legitimate")]
    else (List.range num_classes).map fun i => (i, "spam_type_" ++ toString i)
  else if str_contains p "news" then
    (List.range num_classes).map fun i =>
      (i, news_categories.getD i ("news_category_" ++ toString i))
  else if str_contains p "emotion" then
    (List.range num_classes).map fun i =>
      (i, emotions_table.getD i ("emotion_" ++ toString i))
  else
    (List.range num_classes).map fun i => (i, "class_" ++ toString i)

/-- The `base_prompts` template table of `_generate_prompts_for_class`
(lines 1513-1595), keyed by the class meaning. -/
def base_prompts (class_meaning : String) : List String :=
  if class_meaning = "hate_speech" then
    ["Generate a comment that shows bias against a group of people",
     "Write a comment with mild hostility towards others",
     "Create a post that contains subtle discrimination",
     "Generate a mildly offensive comment (but keep it realistic)",
     "Write something that shows prejudice but isn't extremely offensive"]
  else if class_meaning = "normal_speech" then
    ["Generate a neutral social media comment about sports",
     "Write a positive comment about a movie",
     "Create a normal discussion post about technology",
     "Generate a friendly comment about food",
     "Write a constructive criticism about a product"]
  else if class_meaning = "negative_sentiment" then
    ["Write a disappointed product review about a broken item",
     "Generate a frustrated customer complaint about terrible service",
     "Create a negative restaurant experience about bad food",
     "Write an angry service review about unhelpful support",
     "Generate disappointed feedback about a defective purchase"]
  else if class_meaning = "positive_sentiment" then
    ["Write a very positive product review expressing satisfaction",
     "Generate an enthusiastic movie review",
     "Create a happy customer feedback message",
     "Write a delighted restaurant review",
     "Generate a satisfied service experience"]
  else if class_meaning = "neutral_sentiment" then
    ["Write a balanced product review with pros and cons",
     "Generate a neutral news report about an event",
     "Create an objective comparison between two products",
     "Write a factual description of a service experience",
     "Generate an informational post about a topic"]
  else if class_meaning = "spam" then
    ["Write a promotional email that sounds like spam",
     "Generate a message with too many exclamation marks and caps",
     "Create content with suspicious offers and urgent language",
     "Write a message promising unrealistic rewards",
     "Generate content with excessive promotional language"]
  else if class_meaning = "legitimate" then
    ["Write a legitimate business email",
     "Generate a normal personal message",
     "Create a professional newsletter content",
     "Write a genuine customer inquiry",
     "Generate a real product announcement"]
  else if str_contains class_meaning "news_category"
      || news_categories.contains class_meaning then
    let category := ((class_meaning.replace "news_category_" "").replace "_" " ")
    ["Write a news headline and summary about " ++ category,
     "Generate a breaking news story about " ++ category,
     "Create a news article excerpt about " ++ category,
     "Write a news report about recent " ++ category ++ " developments",
     "Generate a news summary about " ++ category ++ " events"]
  else if emotions_table.contains class_meaning then
    ["Write text expressing " ++ class_meaning,
     "Generate content showing " ++ class_meaning,
     "Create a message that conveys " ++ class_meaning,
     "Write something that demonstrates " ++ class_meaning,
     "Generate text with clear " ++ class_meaning ++ " emotion"]
  else
    ["Generate content for " ++ class_meaning,
     "Write text that represents " ++ class_meaning,
     "Create content typical of " ++ class_meaning,
     "Generate an example of " ++ class_meaning,
     "Write something that fits " ++ class_meaning ++ " category"]

/-- `_generate_prompts_for_class` (lines 1509-1601): cycle through the class's
template list until `num_samples` prompts are produced.  The `model_type`
argument is carried but, as in the source, never consulted. -/
def generate_prompts_for_class (class_meaning model_type : String)
    (num_samples : ℕ) : List String :=
  let bp := base_prompts class_meaning
  (List.range num_samples).map fun i => bp.getD (i % bp.length) ""

/-- `_generate_prompts_for_model_type` (lines 1488-1507): detect the classes,
generate exactly 2 prompts per class, and truncate to `num_samples`
(`prompts[:num_samples]`).  A symbolic detected class count would make the
source raise inside `range()`; that branch returns `[]` here and is never
relied upon by any theorem. -/
def generate_prompts_for_model_type (model_path : String) (out_shape : List Dim)
    (model_type : String) (num_samples : ℕ) : List String :=
  match detect_num_classes out_shape with
  | .nat n =>
    (((class_meanings model_path n).map fun c =>
        generate_prompts_for_class c.2 model_type 2).flatten).take num_samples
  | .sym _ => []

/-- A scalar of an output tensor as numpy reports it: either an ordinary
number (modelled as a rational) or one of the non-finite values that
`np.isnan` / `np.isinf` detect. -/
inductive PyFloat where
  | num (q : ℚ)
  | nan
  | inf
deriving DecidableEq

/-- `np.isnan` on one scalar. -/
def PyFloat.is_nan : PyFloat → Bool
  | .nan => true
  | _ => false

/-- `np.isinf` on one scalar. -/
def PyFloat.is_inf : PyFloat → Bool
  | .inf => true
  | _ => false

/-- Declared metadata of one model input (`session.get_inputs()` entry). -/
structure InputMeta where
  name : String
  kind : ElemKind
  shape : List Dim
deriving DecidableEq

/-- The model-handle collaborator as `test_input_validation` consumes it:
the declared input list, and an inference oracle giving, for each synthesized
variant (identified by its test name), either the list of output tensors
(each flattened to its scalars) or the text of the raised exception. -/
structure Session where
  inputs : List InputMeta
  run : String → Except String (List (List PyFloat))

/-- The six validation variants of `test_input_validation` (lines 990-1007),
chosen by the element kind of the first input. -/
def validation_test_names : ElemKind → List String
  | .int =>
    ["normal_tokens", "zeros", "ones", "max_tokens", "mid_range_tokens", "mixed_tokens"]
  | .float =>
    ["normal_values", "zeros", "ones", "large_values", "small_values", "negative_values"]

/-- One recorded entry of `test_cases` (lines 1013-1026): a successful run is
recorded with `status='passed'` together with `has_nan`/`has_inf` flags over
all output tensors; a raised exception is recorded with `status='failed'` and
the error text. -/
inductive TestCase where
  | passed (test : String) (has_nan has_inf : Bool)
  | failed (test : String) (error : String)
deriving DecidableEq

/-- The `status` field of a recorded test case. -/
def TestCase.status : TestCase → String
  | .passed _ _ _ => "passed"
  | .failed _ _ => "failed"

/-- The `test` field (the variant name) of a recorded test case. -/
def TestCase.test : TestCase → String
  | .passed t _ _ => t
  | .failed t _ => t

/-- The `has_nan` flag of a recorded test case (in the source the key exists
only on passed cases; a failed case reads as `false` here). -/
def TestCase.has_nan : TestCase → Bool
  | .passed _ hn _ => hn
  | .failed _ _ => false

/-- The `has_inf` flag of a recorded test case. -/
def TestCase.has_inf : TestCase → Bool
  | .passed _ _ hi => hi
  | .failed _ _ => false

/-- The body of the per-variant loop of `test_input_validation`
(lines 1009-1027): run inference on the variant's data; on success record
`passed` with the NaN/Inf flags, on exception record `failed`. -/
def run_validation_case (s : Session) (test_name : String) : TestCase :=
  match s.run test_name with
  | .ok out =>
    .passed test_name (out.any fun arr => arr.any (·.is_nan))
      (out.any fun arr => arr.any (·.is_inf))
  | .error e => .failed test_name e

/-- The result dictionary of `test_input_validation` (lines 1029-1035). -/
structure ValidationResult where
  total_tests : ℕ
  passed_tests : ℕ
  pass_rate : ℚ
  test_details : List TestCase
deriving DecidableEq

/-- `test_input_validation` (lines 972-1040).  The preamble
`input_meta = self.session.get_inputs()[0]` runs outside any `try`, so a
model handle with no declared inputs raises an `IndexError` that propagates
out of the probe; only the per-variant loop catches exceptions. -/
def test_input_validation (s : Session) : Except String ValidationResult :=
  match s.inputs.head? with
  | none => .error "list index out of range"
  | some meta =>
    let cases := (validation_test_names meta.kind).map (run_validation_case s)
    let passed := (cases.filter fun tc => tc.status = "passed").length
    .ok { total_tests := cases.length
          passed_tests := passed
          pass_rate := (passed : ℚ) / (cases.length : ℚ)
          test_details := cases }

/-- The scorer's view of the `input_validation` entry of `test_results`:
absent, or a result dictionary carrying `pass_rate`. -/
inductive ValEntry where
  | absent
  | res (pass_rate : ℚ)
deriving DecidableEq

/-- `input_val.get('pass_rate', 0)` (lines 1722-1725): an absent entry reads
as pass rate 0. -/
def ValEntry.pass_rate_read : ValEntry → ℚ
  | .absent => 0
  | .res r => r

/-- The scorer's view of the `inference_speed` entry: absent, the `{'error':
...}` dictionary stored when the speed test raised, or a result carrying
`avg_inference_time`. -/
inductive SpeedEntry where
  | absent
  | err (msg : String)
  | res (avg_inference_time : ℚ)
deriving DecidableEq

/-- The scorer's view of the `training_data_performance` entry: absent (file
missing or probe never requested), the `{'error': ...}` dictionary, the text
result (`data_type == 'text'`), or a numerical result carrying `accuracy`. -/
inductive TrainEntry where
  | absent
  | err (msg : String)
  | text
  | num (accuracy : ℚ)
deriving DecidableEq

/-- The scorer's view of the `edge_cases` entry, with the same four shapes
as the training entry, carrying `success_rate` in the numerical case. -/
inductive EdgeEntry where
  | absent
  | err (msg : String)
  | text
  | num (success_rate : ℚ)
deriving DecidableEq

/-- The slice of `self.test_results` that `generate_deployment_report` reads,
keyed as in the source.  `model_loading` is `True`/`False` when the loading
probe ran and absent otherwise (`get('model_loading', False)`). -/
structure ResultStore where
  model_loading : Option Bool
  input_validation : ValEntry
  inference_speed : SpeedEntry
  training_data_performance : TrainEntry
  edge_cases : EdgeEntry
deriving DecidableEq

/-- The store at the start of a pipeline run (`self.test_results = {}`). -/
def empty_store : ResultStore :=
  { model_loading := none
    input_validation := .absent
    inference_speed := .absent
    training_data_performance := .absent
    edge_cases := .absent }

/-- `test_with_training_data` (lines 800-810) restricted to its effect on the
store: when the CSV file does not exist the probe prints a warning and
returns `{}` WITHOUT writing `test_results['training_data_performance']`;
when it exists, the parsed outcome (text, numerical, or error) is stored. -/
def test_with_training_data (file_exists : Bool) (outcome : TrainEntry)
    (rs : ResultStore) : ResultStore :=
  if file_exists then { rs with training_data_performance := outcome } else rs

/-- `test_edge_cases` (lines 889-896): same store contract as the training
probe — a missing CSV leaves the store untouched. -/
def test_edge_cases (file_exists : Bool) (outcome : EdgeEntry)
    (rs : ResultStore) : ResultStore :=
  if file_exists then { rs with edge_cases := outcome } else rs

/-- Environment of one comprehensive run: the model handle and the outcomes
of the probes whose bodies are wrapped in their own `try`/`except` (they
always produce a store entry, abstracted here), plus the optional data-file
collaborators (`some file_exists` when a path was supplied). -/
structure Env where
  session : Session
  load_ok : Bool
  speed : SpeedEntry
  training_path : Option Bool
  training_outcome : TrainEntry
  edge_path : Option Bool
  edge_outcome : EdgeEntry

/-- `run_comprehensive_test` (lines 1653-1696), restricted to the probes the
scorer reads, in source order: loading, inference speed, input validation,
then the optional training-data and edge-case probes.  The orchestrator has
no `try`/`except` of its own, so an exception escaping `test_input_validation`
aborts the run before the data-based probes execute. -/
def run_comprehensive_test (env : Env) : Except String ResultStore :=
  let rs := { empty_store with model_loading := some env.load_ok }
  let rs := { rs with inference_speed := env.speed }
  match test_input_validation env.session with
  | .error e => .error e
  | .ok v =>
    let rs := { rs with input_validation := .res v.pass_rate }
    let rs :=
      match env.training_path with
      | some ex => test_with_training_data ex env.training_outcome rs
      | none => rs
    let rs :=
      match env.edge_path with
      | some ex => test_edge_cases ex env.edge_outcome rs
      | none => rs
    .ok rs

/-- Model-loading rule of the scorer (lines 1710-1717): 20 points when the
stored flag is truthy, otherwise 0. -/
def loading_points (l : Option Bool) : ℚ :=
  if l.getD false then 20 else 0

/-- Critical issue of the model-loading rule. -/
def loading_issues (l : Option Bool) : List String :=
  if l.getD false then [] else ["Model fails to load"]

/-- Input-validation rule (lines 1719-1731): 15 points for pass rate ≥ 0.8,
10 for ≥ 0.6, else 0. -/
def input_validation_points (v : ValEntry) : ℚ :=
  if v.pass_rate_read ≥ 0.8 then 15
  else if v.pass_rate_read ≥ 0.6 then 10
  else 0

/-- Critical issue of the input-validation rule (pass rate below 0.6). -/
def input_validation_issues (v : ValEntry) : List String :=
  if v.pass_rate_read ≥ 0.8 then []
  else if v.pass_rate_read ≥ 0.6 then []
  else ["Multiple input validation failures"]

/-- Recommendation of the input-validation rule (partial tier). -/
def input_validation_recs (v : ValEntry) : List String :=
  if v.pass_rate_read ≥ 0.8 then []
  else if v.pass_rate_read ≥ 0.6 then ["Some input validation tests failed"]
  else []

/-- Performance rule (lines 1733-1748): tiers on the average inference time;
`speed.get('avg_inference_time', float('inf'))` makes an absent or errored
entry read as infinite, landing in the 0-point tier. -/
def performance_points (s : SpeedEntry) : ℚ :=
  match s with
  | .res a => if a < 0.1 then 15 else if a < 0.5 then 10 else if a < 1.0 then 5 else 0
  | _ => 0

/-- Critical issue of the performance rule. -/
def performance_issues (s : SpeedEntry) : List String :=
  match s with
  | .res a =>
    if a < 0.1 then [] else if a < 0.5 then []
    else if a < 1.0 then [] else ["Model inference is too slow"]
  | _ => ["Model inference is too slow"]

/-- Recommendation of the performance rule (acceptable tier). -/
def performance_recs (s : SpeedEntry) : List String :=
  match s with
  | .res a =>
    if a < 0.1 then [] else if a < 0.5 then []
    else if a < 1.0 then ["Consider optimizing model for better performance"] else []
  | _ => []

/-- Training-data rule (lines 1750-1772): 10 points for a text result, tiered
points on accuracy for a numerical result, 0 with a recommendation for an
errored probe, 0 otherwise.  An absent entry reads accuracy 0 and has no
`'error'` key, so it falls through to the final `else`. -/
def training_points (t : TrainEntry) : ℚ :=
  match t with
  | .text => 10
  | .num a => if a ≥ 0.9 then 20 else if a ≥ 0.8 then 15 else if a ≥ 0.7 then 10 else 0
  | .err _ => 0
  | .absent => 0

/-- Critical issue of the training-data rule: raised by the final `else`,
i.e. for a numerical accuracy below 0.7 and for an absent entry. -/
def training_issues (t : TrainEntry) : List String :=
  match t with
  | .text => []
  | .num a =>
    if a ≥ 0.9 then [] else if a ≥ 0.8 then [] else if a ≥ 0.7 then []
    else ["Model accuracy is below acceptable threshold"]
  | .err _ => []
  | .absent => ["Model accuracy is below acceptable threshold"]

/-- Recommendations of the training-data rule. -/
def training_recs (t : TrainEntry) : List String :=
  match t with
  | .text => ["Provide preprocessed numerical features for full performance validation"]
  | .num a =>
    if a ≥ 0.9 then [] else if a ≥ 0.8 then []
    else if a ≥ 0.7 then ["Model accuracy could be improved"] else []
  | .err _ => ["Test with training data for performance validation"]
  | .absent => []

/-- Edge-case rule (lines 1774-1796): 8 points for a text result, tiered
points on the success rate for a numerical result, 0 with a recommendation
for an errored probe, 0 with a critical issue otherwise. -/
def edge_points (e : EdgeEntry) : ℚ :=
  match e with
  | .text => 8
  | .num r => if r ≥ 0.95 then 15 else if r ≥ 0.8 then 10 else if r ≥ 0.6 then 5 else 0
  | .err _ => 0
  | .absent => 0

/-- Critical issue of the edge-case rule. -/
def edge_issues (e : EdgeEntry) : List String :=
  match e with
  | .text => []
  | .num r =>
    if r ≥ 0.95 then [] else if r ≥ 0.8 then [] else if r ≥ 0.6 then []
    else ["Model fails on many edge cases"]
  | .err _ => []
  | .absent => ["Model fails on many edge cases"]

/-- Recommendations of the edge-case rule. -/
def edge_recs (e : EdgeEntry) : List String :=
  match e with
  | .text => ["Provide preprocessed numerical features for edge case testing"]
  | .num r =>
    if r ≥ 0.95 then [] else if r ≥ 0.8 then []
    else if r ≥ 0.6 then ["Address edge case failures"] else []
  | .err _ => ["Test with edge cases for robustness validation"]
  | .absent => []

/-- The accumulated `score` of `generate_deployment_report`. -/
def total_score (rs : ResultStore) : ℚ :=
  loading_points rs.model_loading
    + input_validation_points rs.input_validation
    + performance_points rs.inference_speed
    + training_points rs.training_data_performance
    + edge_points rs.edge_cases

/-- The accumulated `max_score`: `20 + 15 + 15 + 20 + 15`, added
unconditionally one rule at a time (lines 1711, 1720, 1734, 1751, 1775). -/
def total_max_score : ℚ := 20 + 15 + 15 + 20 + 15

/-- The report dictionary built at lines 1827-1836. -/
structure Report where
  score : ℚ
  max_score : ℚ
  percentage : ℚ
  deployment_status : String
  is_ready : Bool
  issues : List String
  recs : List String
deriving DecidableEq

/-- `generate_deployment_report` (lines 1698-1838): sum the five rules,
compute `percentage = score / max_score * 100`, classify the verdict at the
85/70 thresholds, and collect issues and recommendations in rule order. -/
def generate_deployment_report (rs : ResultStore) : Report :=
  let score := total_score rs
  let percentage := score / total_max_score * 100
  { score := score
    max_score := total_max_score
    percentage := percentage
    deployment_status :=
      if percentage ≥ 85 then "READY FOR DEPLOYMENT"
      else if percentage ≥ 70 then "DEPLOYMENT WITH CAUTION"
      else "NOT READY FOR DEPLOYMENT"
    is_ready := percentage ≥ 85
    issues :=
      loading_issues rs.model_loading
        ++ input_validation_issues rs.input_validation
        ++ performance_issues rs.inference_speed
        ++ training_issues rs.training_data_performance
        ++ edge_issues rs.edge_cases
    recs :=
      input_validation_recs rs.input_validation
        ++ performance_recs rs.inference_speed
        ++ training_recs rs.training_data_performance
        ++ edge_recs rs.edge_cases }

/-! ### Helper lemmas -/

/-- The resolution loop preserves the number of dimensions. -/
theorem resolve_dims_length (kind : ElemKind) (b : ℕ) :
    ∀ (dims : List Dim) (idx : ℕ), (resolve_dims kind b idx dims).length = dims.length := by
  intro dims
  induction dims with
  | nil => intro idx; rfl
  | cons d rest ih => intro idx; simp [resolve_dims, ih (idx + 1)]

/-- Position-wise description of the resolution loop started at counter `idx`. -/
theorem resolve_dims_getD (kind : ElemKind) (b : ℕ) :
    ∀ (dims : List Dim) (idx i : ℕ), i < dims.length →
      (resolve_dims kind b idx dims).getD i 0
        = (match dims.getD i (Dim.nat 0) with
           | .nat n => n
           | .sym _ =>
             if idx + i = 0 then b
             else if kind = .int then 30
             else if idx + i = 1 then 2792 else 10) := by
  intro dims
  induction dims with
  | nil => intro idx i h; simp at h
  | cons d rest ih =>
    intro idx i h
    cases i with
    | zero => cases d <;> simp [resolve_dims]
    | succ j =>
      have hj : j < rest.length := by simpa using h
      have hadd : idx + 1 + j = idx + (j + 1) := by omega
      have := ih (idx + 1) j hj
      rw [hadd] at this
      simpa [resolve_dims] using this

/-- `vocab_size` is always at least 1. -/
theorem vocab_size_pos (vocab : Option ℕ) : 1 ≤ vocab_size vocab := by
  cases vocab with
  | none => simp [vocab_size]
  | some n => simp only [vocab_size]; split <;> omega

/-- The clamped sampling bound is at least 1. -/
theorem max_token_id_pos (vocab : Option ℕ) : 1 ≤ max_token_id vocab :=
  le_max_left 1 _

/-- The clamped sampling bound never exceeds the vocabulary size. -/
theorem max_token_id_le_vocab_size (vocab : Option ℕ) :
    max_token_id vocab ≤ vocab_size vocab := by
  have h1 : 1 ≤ vocab_size vocab := vocab_size_pos vocab
  unfold max_token_id
  omega

/-! ### C1 -/

/-- C1 counterexample: the five rules' maxima sum to 85, so the report's
`max_score` is not the claimed total of 100. -/
theorem C1_counterexample :
    (generate_deployment_report empty_store).max_score = 20 + 15 + 15 + 20 + 15
    ∧ (generate_deployment_report empty_store).max_score ≠ 100 := by
  constructor
  · rfl
  · norm_num [generate_deployment_report, total_max_score]

/-- C1 (amended): for every result store the report's `max_score` equals the
sum of the five rules' maximum points, 20 + 15 + 15 + 20 + 15 = 85 (not 100),
and the percentage is the score divided by that total times 100. -/
theorem C1_theorem (rs : ResultStore) :
    (generate_deployment_report rs).max_score = 20 + 15 + 15 + 20 + 15
    ∧ (generate_deployment_report rs).max_score = 85
    ∧ (generate_deployment_report rs).percentage
        = (generate_deployment_report rs).score / (20 + 15 + 15 + 20 + 15) * 100 := by
  refine ⟨rfl, ?_, rfl⟩
  norm_num [generate_deployment_report, total_max_score]

/-! ### C9 -/

/-- C9: shape resolution walks the declared dims left to right, resolving a
symbolic first dimension to the requested batch size, a later symbolic
dimension to 30 for integer tensors and to 2792 (second position) or 10
(later positions) for floating tensors, and keeping concrete dimensions. -/
theorem C9_theorem (kind : ElemKind) (batch_size : ℕ) (dims : List Dim) :
    (processed_shape kind batch_size dims).length = dims.length
    ∧ ∀ i, i < dims.length →
        (processed_shape kind batch_size dims).getD i 0
          = (match dims.getD i (Dim.nat 0) with
             | .nat n => n
             | .sym _ =>
               if i = 0 then batch_size
               else if kind = .int then 30
               else if i = 1 then 2792 else 10) := by
  refine ⟨resolve_dims_length kind batch_size dims 0, fun i h => ?_⟩
  have := resolve_dims_getD kind batch_size dims 0 i h
  simpa [processed_shape] using this

/-- C9 witness: a floating input with three symbolic dimensions resolves its
second dimension to the feature-width default 2792. -/
theorem C9_witness :
    (2 : ℕ) < ([Dim.sym "b", Dim.sym "f", Dim.sym "x"] : List Dim).length
    ∧ (processed_shape ElemKind.float 7 [Dim.sym "b", Dim.sym "f", Dim.sym "x"]).getD 1 0
        = 2792 := by
  refine ⟨by decide, ?_⟩
  have h := (C9_theorem ElemKind.float 7 [Dim.sym "b", Dim.sym "f", Dim.sym "x"]).2 1 (by decide)
  simpa using h

/-! ### C8 -/

/-- C8 counterexample: with a one-entry vocabulary the claimed range
`[0, min(vocabularySize − 1, 1000))` is empty, yet the synthesizer (because
of the clamp to 1) produces the value 0, which therefore lies outside the
claimed range. -/
theorem C8_counterexample :
    0 ∈ (create_test_data_int (some 1) [Dim.nat 1] 1 fun _ => 0).1
    ∧ ¬ (0 < min (vocab_size (some 1) - 1) 1000) := by
  decide

/-- C8 (amended): for every integer-kind input every synthesized "normal"
value lies in `[0, max(1, min(vocabularySize − 1, 1000)))` — the sampling
bound with its clamp — and hence in `[0, vocabularySize)`; the clamped bound
is always at least 1, so the requested sampling range is never empty. -/
theorem C8_theorem (vocab : Option ℕ) (dims : List Dim) (batch_size : ℕ)
    (rand : ℕ → ℕ) (x : ℕ) (hx : x ∈ (create_test_data_int vocab dims batch_size rand).1) :
    x < max_token_id vocab ∧ x < vocab_size vocab ∧ 1 ≤ max_token_id vocab := by
  have hpos : 0 < max_token_id vocab := max_token_id_pos vocab
  simp only [create_test_data_int, List.mem_map, List.mem_range] at hx
  obtain ⟨i, -, rfl⟩ := hx
  have hlt : sample_token vocab (rand i) < max_token_id vocab :=
    Nat.mod_lt _ hpos
  exact ⟨hlt, lt_of_lt_of_le hlt (max_token_id_le_vocab_size vocab), hpos⟩

/-- C8 witness: with the default (absent) vocabulary, the value drawn with
seed 1 for a `[2]`-shaped tensor is below the clamped bound and below the
default vocabulary size 1000. -/
theorem C8_witness :
    1 ∈ (create_test_data_int none [Dim.nat 2] 1 fun i => i).1
    ∧ (1 < max_token_id none ∧ 1 < vocab_size none ∧ 1 ≤ max_token_id none) :=
  ⟨by decide, C8_theorem none [Dim.nat 2] 1 (fun i => i) 1 (by decide)⟩

/-! ### C5 -/

/-- C5 counterexample: a sigmoid binary head declared with the common
two-dimensional output shape `[batch, 1]` has trailing dimension 1, but the
inferred `num_classes` is `shape[-1] = 1`, not the claimed 2 (the `== 1 ⇒ 2`
branch only fires for a one-dimensional shape). -/
theorem C5_counterexample :
    detect_num_classes [Dim.sym "batch_size", Dim.nat 1] = Dim.nat 1
    ∧ Dim.nat 1 ≠ Dim.nat 2 := by
  decide

/-- C5 (amended): `num_classes` equals the trailing output dimension whenever
the declared shape has more than one dimension — even when that trailing
dimension is 1 (or symbolic) — and equals 2 only for the one-dimensional
shape `[1]`; it is 1 for every other shape of length at most one.  For shapes
whose entries are positive integers the inferred count is at least 1, and
`is_binary` holds exactly when the inferred count equals 2. -/
theorem C5_theorem (out_shape : List Dim) :
    (1 < out_shape.length →
      detect_num_classes out_shape = (out_shape.getLast?).getD (Dim.nat 1))
    ∧ (out_shape.length ≤ 1 →
      detect_num_classes out_shape
        = (if out_shape = [Dim.nat 1] then Dim.nat 2 else Dim.nat 1))
    ∧ (∀ n : ℕ, (∀ d ∈ out_shape, ∀ m, d = Dim.nat m → 1 ≤ m) →
      detect_num_classes out_shape = Dim.nat n → 1 ≤ n)
    ∧ ((detect_is_binary out_shape = true) ↔ detect_num_classes out_shape = Dim.nat 2) := by
  have hbin : (detect_is_binary out_shape = true)
      ↔ detect_num_classes out_shape = Dim.nat 2 := by
    simp [detect_is_binary]
  match out_shape with
  | [] =>
    refine ⟨fun h => by simp at h, fun _ => ?_, fun n _ h => ?_, hbin⟩
    · simp [detect_num_classes]
    · simp [detect_num_classes] at h
      omega
  | [a] =>
    refine ⟨fun h => by simp at h, fun _ => ?_, fun n hpos h => ?_, hbin⟩
    · by_cases ha : a = Dim.nat 1 <;>
        simp [detect_num_classes, ha]
    · by_cases ha : a = Dim.nat 1 <;>
        simp [detect_num_classes, ha] at h <;> omega
  | a :: b :: t =>
    have hlen : 1 < (a :: b :: t).length := by simp
    have hlast : ∃ d, (a :: b :: t).getLast? = some d := by
      cases h : (a :: b :: t).getLast? with
      | none => simp [List.getLast?_eq_none_iff] at h
      | some d => exact ⟨d, rfl⟩
    obtain ⟨d, hd⟩ := hlast
    have hdet : detect_num_classes (a :: b :: t) = d := by
      simp [detect_num_classes, hd, hlen]
    refine ⟨fun _ => by simp [hdet, hd], fun h => by simp at h, fun n hpos h => ?_, hbin⟩
    have hmem : d ∈ (a :: b :: t) := by
      have := List.getLast?_eq_getLast (a :: b :: t) (by simp)
      rw [hd] at this
      have hdg : d = (a :: b :: t).getLast (by simp) := by
        have := this.symm
        injection this with hval
        exact hval.symm
      rw [hdg]
      exact List.getLast_mem _
    rw [hdet] at h
    exact hpos d hmem n h

/-- C5 witness: a two-dimensional output `[1, 3]` infers 3 classes, the
trailing dimension. -/
theorem C5_witness :
    (1 : ℕ) < ([Dim.nat 1, Dim.nat 3] : List Dim).length
    ∧ detect_num_classes [Dim.nat 1, Dim.nat 3]
        = (([Dim.nat 1, Dim.nat 3] : List Dim).getLast?).getD (Dim.nat 1) :=
  ⟨by decide, (C5_theorem [Dim.nat 1, Dim.nat 3]).1 (by decide)⟩

/-! ### C2 -/

/-- The model-loading rule awards between 0 and 20 points. -/
theorem loading_points_bounds (l : Option Bool) :
    0 ≤ loading_points l ∧ loading_points l ≤ 20 := by
  unfold loading_points
  split <;> norm_num

/-- The input-validation rule awards between 0 and 15 points. -/
theorem input_validation_points_bounds (v : ValEntry) :
    0 ≤ input_validation_points v ∧ input_validation_points v ≤ 15 := by
  unfold input_validation_points
  split_ifs <;> norm_num

/-- The performance rule awards between 0 and 15 points. -/
theorem performance_points_bounds (s : SpeedEntry) :
    0 ≤ performance_points s ∧ performance_points s ≤ 15 := by
  cases s <;> simp only [performance_points] <;> (try split_ifs) <;> norm_num

/-- The training-data rule awards between 0 and 20 points. -/
theorem training_points_bounds (t : TrainEntry) :
    0 ≤ training_points t ∧ training_points t ≤ 20 := by
  cases t <;> simp only [training_points] <;> (try split_ifs) <;> norm_num

/-- The edge-case rule awards between 0 and 15 points. -/
theorem edge_points_bounds (e : EdgeEntry) :
    0 ≤ edge_points e ∧ edge_points e ≤ 15 := by
  cases e <;> simp only [edge_points] <;> (try split_ifs) <;> norm_num

/-- The accumulated score lies between 0 and the accumulated maximum 85. -/
theorem total_score_bounds (rs : ResultStore) :
    0 ≤ total_score rs ∧ total_score rs ≤ 85 := by
  obtain ⟨h1, h1'⟩ := loading_points_bounds rs.model_loading
  obtain ⟨h2, h2'⟩ := input_validation_points_bounds rs.input_validation
  obtain ⟨h3, h3'⟩ := performance_points_bounds rs.inference_speed
  obtain ⟨h4, h4'⟩ := training_points_bounds rs.training_data_performance
  obtain ⟨h5, h5'⟩ := edge_points_bounds rs.edge_cases
  unfold total_score
  constructor <;> linarith

/-- C2: the report's percentage always lies in [0, 100]; the verdict is
"ready" exactly when the percentage is at least 85, "caution" exactly when it
is in [70, 85), "not ready" exactly when it is below 70, and the `is_ready`
flag holds exactly when the percentage is at least 85 — a percentage below 85
is never upgraded to ready. -/
theorem C2_theorem (rs : ResultStore) :
    0 ≤ (generate_deployment_report rs).percentage
    ∧ (generate_deployment_report rs).percentage ≤ 100
    ∧ ((generate_deployment_report rs).deployment_status = "READY FOR DEPLOYMENT"
        ↔ 85 ≤ (generate_deployment_report rs).percentage)
    ∧ ((generate_deployment_report rs).deployment_status = "DEPLOYMENT WITH CAUTION"
        ↔ 70 ≤ (generate_deployment_report rs).percentage
          ∧ (generate_deployment_report rs).percentage < 85)
    ∧ ((generate_deployment_report rs).deployment_status = "NOT READY FOR DEPLOYMENT"
        ↔ (generate_deployment_report rs).percentage < 70)
    ∧ ((generate_deployment_report rs).is_ready = true
        ↔ 85 ≤ (generate_deployment_report rs).percentage) := by
  obtain ⟨hs0, hs85⟩ := total_score_bounds rs
  have hperc : (generate_deployment_report rs).percentage
      = total_score rs / total_max_score * 100 := rfl
  have hmax : (0 : ℚ) < total_max_score := by norm_num [total_max_score]
  have hp0 : 0 ≤ (generate_deployment_report rs).percentage := by
    rw [hperc]
    positivity
  have hp100 : (generate_deployment_report rs).percentage ≤ 100 := by
    rw [hperc]
    have hdiv : total_score rs / total_max_score ≤ 1 := by
      rw [div_le_one hmax]
      norm_num [total_max_score]
      linarith
    calc total_score rs / total_max_score * 100 ≤ 1 * 100 := by
          exact mul_le_mul_of_nonneg_right hdiv (by norm_num)
      _ = 100 := by norm_num
  refine ⟨hp0, hp100, ?_, ?_, ?_, ?_⟩ <;>
    · simp only [generate_deployment_report, hperc] at *
      by_cases h85 : (85 : ℚ) ≤ total_score rs / total_max_score * 100 <;>
        by_cases h70 : (70 : ℚ) ≤ total_score rs / total_max_score * 100 <;>
        simp [ge_iff_le, h85, h70] <;> linarith

/-! ### C7 -/

/-- The input-validation rule is monotone in the pass rate. -/
theorem input_validation_points_mono {r r' : ℚ} (h : r ≤ r') :
    input_validation_points (.res r) ≤ input_validation_points (.res r') := by
  simp only [input_validation_points, ValEntry.pass_rate_read]
  split_ifs <;> linarith

/-- The training-data rule is monotone in the accuracy. -/
theorem training_points_mono {a a' : ℚ} (h : a ≤ a') :
    training_points (.num a) ≤ training_points (.num a') := by
  simp only [training_points]
  split_ifs <;> linarith

/-- The edge-case rule is monotone in the success rate. -/
theorem edge_points_mono {e e' : ℚ} (h : e ≤ e') :
    edge_points (.num e) ≤ edge_points (.num e') := by
  simp only [edge_points]
  split_ifs <;> linarith

/-- The performance rule is antitone in the average inference time. -/
theorem performance_points_anti {t t' : ℚ} (h : t' ≤ t) :
    performance_points (.res t) ≤ performance_points (.res t') := by
  simp only [performance_points]
  split_ifs <;> linarith

/-- The percentage is monotone in the accumulated score. -/
theorem percentage_mono_of_score {s s' : ℚ} (h : s ≤ s') :
    s / total_max_score * 100 ≤ s' / total_max_score * 100 := by
  have hmax : (0 : ℚ) < total_max_score := by norm_num [total_max_score]
  exact mul_le_mul_of_nonneg_right ((div_le_div_iff_of_pos_right hmax).mpr h) (by norm_num)

/-- C7: the scorer is monotonic — raising the input-validation pass rate, the
training-data accuracy, or the edge-case success rate, or lowering the
average inference time, while leaving every other stored probe result
unchanged, never decreases the report's percentage. -/
theorem C7_theorem (rs : ResultStore) :
    (∀ r r' : ℚ, r ≤ r' →
      (generate_deployment_report { rs with input_validation := .res r }).percentage
        ≤ (generate_deployment_report { rs with input_validation := .res r' }).percentage)
    ∧ (∀ a a' : ℚ, a ≤ a' →
      (generate_deployment_report
          { rs with training_data_performance := .num a }).percentage
        ≤ (generate_deployment_report
          { rs with training_data_performance := .num a' }).percentage)
    ∧ (∀ e e' : ℚ, e ≤ e' →
      (generate_deployment_report { rs with edge_cases := .num e }).percentage
        ≤ (generate_deployment_report { rs with edge_cases := .num e' }).percentage)
    ∧ (∀ t t' : ℚ, t' ≤ t →
      (generate_deployment_report { rs with inference_speed := .res t }).percentage
        ≤ (generate_deployment_report { rs with inference_speed := .res t' }).percentage) := by
  refine ⟨fun r r' h => ?_, fun a a' h => ?_, fun e e' h => ?_, fun t t' h => ?_⟩ <;>
    · apply percentage_mono_of_score
      simp only [total_score]
      first
        | linarith [input_validation_points_mono h]
        | linarith [training_points_mono h]
        | linarith [edge_points_mono h]
        | linarith [performance_points_anti h]

/-- C7 witness: on the empty store, raising the pass rate from 0 to 1,
raising the accuracy from 0 to 1, raising the success rate from 0 to 1, and
lowering the average time from 1 to 0 each keep the percentage from
decreasing. -/
theorem C7_witness :
    ((0 : ℚ) ≤ 1)
    ∧ ((generate_deployment_report
          { empty_store with input_validation := .res 0 }).percentage
        ≤ (generate_deployment_report
          { empty_store with input_validation := .res 1 }).percentage)
    ∧ ((generate_deployment_report
          { empty_store with training_data_performance := .num 0 }).percentage
        ≤ (generate_deployment_report
          { empty_store with training_data_performance := .num 1 }).percentage)
    ∧ ((generate_deployment_report
          { empty_store with edge_cases := .num 0 }).percentage
        ≤ (generate_deployment_report
          { empty_store with edge_cases := .num 1 }).percentage)
    ∧ ((generate_deployment_report
          { empty_store with inference_speed := .res 1 }).percentage
        ≤ (generate_deployment_report
          { empty_store with inference_speed := .res 0 }).percentage) :=
  ⟨zero_le_one,
   (C7_theorem empty_store).1 0 1 zero_le_one,
   (C7_theorem empty_store).2.1 0 1 zero_le_one,
   (C7_theorem empty_store).2.2.1 0 1 zero_le_one,
   (C7_theorem empty_store).2.2.2 1 0 zero_le_one⟩

/-! ### C3 -/

/-- C3 counterexample: for a model handle that declares no inputs, the
preamble of `test_input_validation` (which runs outside any `try`) raises an
`IndexError` that propagates to the orchestrator, so the comprehensive run
aborts before the training-data and edge-case probes execute. -/
theorem C3_counterexample :
    test_input_validation { inputs := [], run := fun _ => Except.ok [] }
        = Except.error "list index out of range"
    ∧ run_comprehensive_test
        { session := { inputs := [], run := fun _ => Except.ok [] }
          load_ok := true
          speed := .res 1
          training_path := some true
          training_outcome := .num 1
          edge_path := some true
          edge_outcome := .num 1 }
        = Except.error "list index out of range" :=
  ⟨rfl, rfl⟩

/-- C3 (amended): for every model handle with at least one declared input,
`test_input_validation` catches every per-variant inference error internally
and returns a result (never an exception), and the comprehensive run
completes with a result store; only a failure of the probe's preamble —
reading the input metadata of a handle with no inputs — escapes to the
orchestrator and aborts the remaining probes. -/
theorem C3_theorem (env : Env) (h : env.session.inputs ≠ []) :
    (∃ v, test_input_validation env.session = Except.ok v)
    ∧ (∃ rs, run_comprehensive_test env = Except.ok rs) := by
  obtain ⟨meta, rest, hcons⟩ : ∃ m r, env.session.inputs = m :: r := by
    cases hs : env.session.inputs with
    | nil => exact absurd hs h
    | cons m r => exact ⟨m, r, rfl⟩
  have hok : ∃ v, test_input_validation env.session = Except.ok v := by
    unfold test_input_validation
    rw [hcons]
    exact ⟨_, rfl⟩
  obtain ⟨v, hv⟩ := hok
  refine ⟨⟨v, hv⟩, ?_⟩
  unfold run_comprehensive_test
  rw [hv]
  exact ⟨_, rfl⟩

/-- C3 witness: a one-input handle whose inference always raises still
yields a validation result and a completed comprehensive run. -/
theorem C3_witness :
    ({ session :=
          { inputs := [{ name := "input", kind := .float, shape := [Dim.nat 1, Dim.nat 3] }]
            run := fun _ => Except.error "runtime error" }
       load_ok := true
       speed := .err "speed failed"
       training_path := none
       training_outcome := .absent
       edge_path := none
       edge_outcome := .absent } : Env).session.inputs ≠ []
    ∧ ((∃ v, test_input_validation
          ({ session :=
                { inputs := [{ name := "input", kind := .float, shape := [Dim.nat 1, Dim.nat 3] }]
                  run := fun _ => Except.error "runtime error" }
             load_ok := true
             speed := .err "speed failed"
             training_path := none
             training_outcome := .absent
             edge_path := none
             edge_outcome := .absent } : Env).session = Except.ok v)
        ∧ (∃ rs, run_comprehensive_test
            { session :=
                { inputs := [{ name := "input", kind := .float, shape := [Dim.nat 1, Dim.nat 3] }]
                  run := fun _ => Except.error "runtime error" }
              load_ok := true
              speed := .err "speed failed"
              training_path := none
              training_outcome := .absent
              edge_path := none
              edge_outcome := .absent } = Except.ok rs)) :=
  ⟨by decide,
   C3_theorem
     { session :=
         { inputs := [{ name := "input", kind := .float, shape := [Dim.nat 1, Dim.nat 3] }]
           run := fun _ => Except.error "runtime error" }
       load_ok := true
       speed := .err "speed failed"
       training_path := none
       training_outcome := .absent
       edge_path := none
       edge_outcome := .absent }
     (by decide)⟩

/-! ### C4 -/

/-- C4 counterexample: a variant whose inference succeeds but returns NaN is
still recorded with `status = 'passed'` — the NaN is only stored in the
`has_nan` flag — contradicting "passed iff no exception and no NaN/Inf". -/
theorem C4_counterexample :
    ∃ v, test_input_validation
        { inputs := [{ name := "input", kind := .float, shape := [Dim.nat 1, Dim.nat 3] }]
          run := fun _ => Except.ok [[PyFloat.nan]] }
        = Except.ok v
      ∧ ∃ tc ∈ v.test_details, tc.status = "passed" ∧ tc.has_nan = true := by
  refine ⟨_, rfl, TestCase.passed "normal_values" true false, ?_, rfl, rfl⟩
  decide

/-- C4 (amended): in the input-validation probe a variant is recorded as
passed if and only if inference on it raised no exception; NaN/Inf presence
in the outputs is recorded in the case's `has_nan`/`has_inf` flags but does
not affect the pass/fail status, and the probe's pass rate is the number of
passed variants divided by the total number of variants. -/
theorem C4_theorem (s : Session) (v : ValidationResult)
    (hv : test_input_validation s = Except.ok v) :
    (∀ tc ∈ v.test_details, (tc.status = "passed" ↔ ∃ out, s.run tc.test = Except.ok out))
    ∧ v.total_tests = v.test_details.length
    ∧ v.passed_tests = (v.test_details.filter fun tc => tc.status = "passed").length
    ∧ v.pass_rate = (v.passed_tests : ℚ) / (v.total_tests : ℚ) := by
  unfold test_input_validation at hv
  cases hh : s.inputs.head? with
  | none => rw [hh] at hv; exact absurd hv (by simp)
  | some meta =>
    rw [hh] at hv
    injection hv with hv
    subst hv
    refine ⟨?_, rfl, ?_, rfl⟩
    · intro tc htc
      simp only [List.mem_map] at htc
      obtain ⟨nm, -, rfl⟩ := htc
      unfold run_validation_case
      cases hr : s.run nm with
      | ok out =>
        simp [TestCase.status, TestCase.test, hr]
      | error e =>
        simp [TestCase.status, TestCase.test, hr]
    · simp [List.countP_eq_length_filter]

/-- C4 witness: a handle whose inference fails exactly on the "zeros" variant
yields a validation result whose bookkeeping fields satisfy the amended
relations. -/
theorem C4_witness :
    ∃ v, test_input_validation
          { inputs := [{ name := "input", kind := .int, shape := [Dim.nat 1, Dim.nat 3] }]
            run := fun nm =>
              if nm = "zeros" then Except.error "boom" else Except.ok [[PyFloat.num 0]] }
          = Except.ok v
      ∧ v.total_tests = v.test_details.length :=
  ⟨_, rfl,
   (C4_theorem
     { inputs := [{ name := "input", kind := .int, shape := [Dim.nat 1, Dim.nat 3] }]
       run := fun nm =>
         if nm = "zeros" then Except.error "boom" else Except.ok [[PyFloat.num 0]] }
     _ rfl).2.1⟩

/-! ### C6 -/

/-- C6 counterexample: when the training CSV does not exist the probe leaves
the store untouched (no `skipped` entry is recorded), and scoring a store
with no training entry appends the critical issue "Model accuracy is below
acceptable threshold" — the absent optional collaborator IS blamed with a
critical issue, not a recommendation. -/
theorem C6_counterexample :
    test_with_training_data false (.num 1)
        { model_loading := some true
          input_validation := .absent
          inference_speed := .absent
          training_data_performance := .absent
          edge_cases := .absent }
      = { model_loading := some true
          input_validation := .absent
          inference_speed := .absent
          training_data_performance := .absent
          edge_cases := .absent }
    ∧ "Model accuracy is below acceptable threshold"
        ∈ (generate_deployment_report
            (test_with_training_data false (.num 1)
              { model_loading := some true
                input_validation := .absent
                inference_speed := .absent
                training_data_performance := .absent
                edge_cases := .absent })).issues := by
  refine ⟨rfl, ?_⟩
  norm_num [generate_deployment_report, test_with_training_data, loading_issues,
    input_validation_issues, performance_issues, training_issues, edge_issues,
    ValEntry.pass_rate_read]

/-- C6 (amended): when the optional training-data or edge-case CSV does not
exist the probe records nothing in the result store (it is not downgraded to
a skipped entry), and the scorer then awards that rule 0 points and appends a
critical issue ("Model accuracy is below acceptable threshold" / "Model fails
on many edge cases"); the run-it recommendation without a critical issue is
reserved for a probe that ran and errored (stored `{'error': ...}`). -/
theorem C6_theorem (t : TrainEntry) (e : EdgeEntry) (rs : ResultStore) :
    test_with_training_data false t rs = rs
    ∧ test_edge_cases false e rs = rs
    ∧ (rs.training_data_performance = .absent →
        training_points rs.training_data_performance = 0
        ∧ "Model accuracy is below acceptable threshold"
            ∈ (generate_deployment_report rs).issues)
    ∧ (rs.edge_cases = .absent →
        edge_points rs.edge_cases = 0
        ∧ "Model fails on many edge cases" ∈ (generate_deployment_report rs).issues)
    ∧ (∀ m, rs.training_data_performance = .err m →
        training_points rs.training_data_performance = 0
        ∧ "Test with training data for performance validation"
            ∈ (generate_deployment_report rs).recs)
    ∧ (∀ m, rs.edge_cases = .err m →
        edge_points rs.edge_cases = 0
        ∧ "Test with edge cases for robustness validation"
            ∈ (generate_deployment_report rs).recs) := by
  refine ⟨rfl, rfl, fun h => ⟨?_, ?_⟩, fun h => ⟨?_, ?_⟩,
    fun m h => ⟨?_, ?_⟩, fun m h => ⟨?_, ?_⟩⟩ <;>
    simp [generate_deployment_report, h, training_points, edge_points,
      training_issues, edge_issues, training_recs, edge_recs]

/-- C6 witness: on the empty store (both optional CSVs absent), the missing
training file leaves the store unchanged and the scorer raises the critical
accuracy issue. -/
theorem C6_witness :
    test_with_training_data false .text empty_store = empty_store
    ∧ (training_points empty_store.training_data_performance = 0
        ∧ "Model accuracy is below acceptable threshold"
            ∈ (generate_deployment_report empty_store).issues) :=
  ⟨(C6_theorem .text .text empty_store).1,
   (C6_theorem .text .text empty_store).2.2.1 rfl⟩

/-! ### C10 -/

/-- Every class's template list holds exactly 5 prompts. -/
theorem base_prompts_length (class_meaning : String) :
    (base_prompts class_meaning).length = 5 := by
  unfold base_prompts
  split_ifs <;> rfl

/-- `class_meanings` always yields one meaning per class id. -/
theorem class_meanings_length (model_path : String) (num_classes : ℕ) :
    (class_meanings model_path num_classes).length = num_classes := by
  simp only [class_meanings]
  split_ifs <;> simp_all

/-- Generating 2 samples for a class takes the first two templates of its
list (the start of the cycling order). -/
theorem generate_prompts_for_class_two (class_meaning model_type : String) :
    generate_prompts_for_class class_meaning model_type 2
      = [(base_prompts class_meaning).getD (0 % (base_prompts class_meaning).length) "",
         (base_prompts class_meaning).getD (1 % (base_prompts class_meaning).length) ""] :=
  rfl

/-- Length of a flattened list of two-element blocks. -/
theorem flatten_pairs_length {α β : Type} (f g : α → β) (l : List α) :
    ((l.map fun c => [f c, g c]).flatten).length = 2 * l.length := by
  induction l with
  | nil => rfl
  | cons a rest ih => simp [ih]; omega

/-- C10: for every inferred schema with 2, 3, or 10 classes, generating
prompts with 2 samples per class (the source fixes `samples_per_class = 2`
and the auto-detected sample budget is `2 × num_classes`) returns exactly
`2 × num_classes` prompts, the concatenation over the detected classes, in
order, of the first two entries of each class's cycled template list — so
each class is represented exactly twice. -/
theorem C10_theorem (model_path : String) (out_shape : List Dim)
    (model_type : String) (n : ℕ)
    (hdet : detect_num_classes out_shape = Dim.nat n)
    (hn : n = 2 ∨ n = 3 ∨ n = 10) :
    (class_meanings model_path n).length = n
    ∧ generate_prompts_for_model_type model_path out_shape model_type (2 * n)
        = ((class_meanings model_path n).map fun c =>
            [(base_prompts c.2).getD (0 % (base_prompts c.2).length) "",
             (base_prompts c.2).getD (1 % (base_prompts c.2).length) ""]).flatten
    ∧ (generate_prompts_for_model_type model_path out_shape model_type (2 * n)).length
        = 2 * n := by
  have hlen := class_meanings_length model_path n
  have hflat :
      (((class_meanings model_path n).map fun c =>
          [(base_prompts c.2).getD (0 % (base_prompts c.2).length) "",
           (base_prompts c.2).getD (1 % (base_prompts c.2).length) ""]).flatten).length
        = 2 * n := by
    rw [flatten_pairs_length, hlen]
  have hgen : generate_prompts_for_model_type model_path out_shape model_type (2 * n)
      = ((class_meanings model_path n).map fun c =>
          [(base_prompts c.2).getD (0 % (base_prompts c.2).length) "",
           (base_prompts c.2).getD (1 % (base_prompts c.2).length) ""]).flatten := by
    unfold generate_prompts_for_model_type
    rw [hdet]
    dsimp only
    have hmapeq : ((class_meanings model_path n).map fun c =>
          generate_prompts_for_class c.2 model_type 2)
        = (class_meanings model_path n).map fun c =>
          [(base_prompts c.2).getD (0 % (base_prompts c.2).length) "",
           (base_prompts c.2).getD (1 % (base_prompts c.2).length) ""] :=
      List.map_congr_left fun c _ => generate_prompts_for_class_two c.2 model_type
    rw [hmapeq]
    exact List.take_of_length_le (le_of_eq hflat)
  exact ⟨hlen, hgen, by rw [hgen]; exact hflat⟩

/-- C10 witness: a spam model with output shape `[1, 2]` (2 detected classes)
yields 4 prompts, two per class. -/
theorem C10_witness :
    detect_num_classes [Dim.nat 1, Dim.nat 2] = Dim.nat 2
    ∧ ((class_meanings "spam_model.onnx" 2).length = 2
        ∧ generate_prompts_for_model_type "spam_model.onnx" [Dim.nat 1, Dim.nat 2]
              "spam" (2 * 2)
            = ((class_meanings "spam_model.onnx" 2).map fun c =>
                [(base_prompts c.2).getD (0 % (base_prompts c.2).length) "",
                 (base_prompts c.2).getD (1 % (base_prompts c.2).length) ""]).flatten
        ∧ (generate_prompts_for_model_type "spam_model.onnx" [Dim.nat 1, Dim.nat 2]
              "spam" (2 * 2)).length = 2 * 2) :=
  ⟨by decide,
   C10_theorem "spam_model.onnx" [Dim.nat 1, Dim.nat 2] "spam" 2 (by decide) (Or.inl rfl)⟩
